import Mathlib

/-!
Verification of the crawl engine of `mcp-rag-web-scraper` against its
natural-language specification.  The Python sources are shallowly embedded:
the mutable fields of `WebsiteScraper` become a state record, each method
becomes a state-passing function, external effects (page fetches, robots
evaluation, the document store) are supplied as explicit outcome parameters,
and Python exceptions are modelled with `Except` / outcome flags.
-/

namespace Scraper

/-- Python `set.add` on a set modelled as a duplicate-free list:
membership-checked insert (idempotent, as `set.add` is). -/
def setInsert (s : List String) (x : String) : List String :=
  if x ∈ s then s else s ++ [x]

/-- The mutable fields of `WebsiteScraper` (src/scrapers/website_scraper.py,
`__init__`): `visited_urls` (a Python `set`, modelled as a duplicate-free
list), `urls_to_scrape` (the frontier list), `stop_triggered`, the document
store handle (only whether `close()` was called matters here), and
`last_scraped_time` (an opaque timestamp, `none` before any run). -/
structure ScraperState where
  visited_urls : List String
  urls_to_scrape : List String
  stop_triggered : Bool
  doc_store_closed : Bool
  last_scraped_time : Option Nat
deriving Repr, DecidableEq

/-- Outcome of the external effects performed by `_scrape_page` for one URL:
whether `page.goto` succeeded (a raising `goto` is modelled as `fetchOk =
false`), what `_extract_content` returned (it catches its own exceptions and
returns `None` on failure, hence an `Option`), whether
`document_store.store_documents` succeeded (it can raise), and the result of
`_extract_links` (which can raise). -/
structure PageOutcome where
  fetchOk : Bool
  content : Option Unit
  storeOk : Bool
  links : Except Unit (List String)

/-- `WebsiteScraper._can_fetch` (lines 51-66): inside a `try`, return `True`
when `override_robots` is set or the robots parser is absent (falsy);
otherwise evaluate `robots_parser.can_fetch(user_agent, url)`, whose result
is modelled as `ruleEval : Except Unit Bool`; any exception from that
evaluation is caught and turned into `False`. -/
def can_fetch (override_robots : Bool) (robotsPresent : Bool)
    (ruleEval : Except Unit Bool) : Bool :=
  if override_robots || !robotsPresent then true
  else
    match ruleEval with
    | Except.ok b => b
    | Except.error _ => false

/-- `WebsiteScraper._scrape_page` (lines 140-184) for one URL, given the
outcome `out` of its external effects and `canF` for `_can_fetch`.
Control flow of the source: return immediately if the URL is visited;
if `goto` raises, the outer `except` catches it and no field changes;
after a successful `goto` the URL is added to `visited_urls`; a raising
`store_documents` is caught by the outer `except`, skipping link discovery;
a raising `_extract_links` likewise leaves the frontier unchanged; otherwise
the frontier is extended with the discovered links filtered, in order,
against `visited_urls` (which already holds `url`) and against the frontier
as it stood before the `extend`. -/
def scrape_page (canF : String → Bool) (out : PageOutcome)
    (s : ScraperState) (url : String) : ScraperState :=
  if url ∈ s.visited_urls then s
  else if !out.fetchOk then s
  else
    let s1 : ScraperState := { s with visited_urls := setInsert s.visited_urls url }
    if out.content.isSome && !out.storeOk then s1
    else
      match out.links with
      | Except.error _ => s1
      | Except.ok new_links =>
          { s1 with urls_to_scrape :=
              s1.urls_to_scrape ++ new_links.filter (fun link =>
                !decide (link ∈ s1.visited_urls) &&
                !decide (link ∈ s1.urls_to_scrape) && canF link) }

/-- The batch drain of `scrape_website` (lines 96-104): on the first loop
iteration the batch is the whole of `urls_to_scrape` and the list is left in
place; on every later iteration the batch is the first `limit` elements and
they are removed.  Returns the batch and the updated state. -/
def next_batch (limit : Nat) (first_run : Bool) (s : ScraperState) :
    List String × ScraperState :=
  if first_run then (s.urls_to_scrape, s)
  else (s.urls_to_scrape.take limit,
        { s with urls_to_scrape := s.urls_to_scrape.drop limit })

/-- The `while` guard of `scrape_website` (line 97):
`self.urls_to_scrape and len(self.visited_urls) < max_pages`.
Note that `stop_triggered` does not appear in it. -/
def loopGuard (max_pages : Nat) (s : ScraperState) : Bool :=
  !s.urls_to_scrape.isEmpty && decide (s.visited_urls.length < max_pages)

/-- The task filter of `scrape_website` (lines 109-115): a task is created
for each batch URL not yet visited and allowed by `_can_fetch`. -/
def batchTasks (canF : String → Bool) (s : ScraperState)
    (batch : List String) : List String :=
  batch.filter (fun u => !decide (u ∈ s.visited_urls) && canF u)

/-- Running one batch: each task runs `_scrape_page`.  The single-threaded
event loop is modelled by processing the tasks sequentially. -/
def runBatch (canF : String → Bool) (out : String → PageOutcome)
    (s : ScraperState) (tasks : List String) : ScraperState :=
  tasks.foldl (fun st u => scrape_page canF (out u) st u) s

/-- The main loop of `scrape_website` (lines 96-119), fuelled: while the
guard holds, drain a batch, build the task list, run the batch, recurse with
`first_run := false`.  Returns the list of drained batches and the final
state. -/
def scrape_loop (canF : String → Bool) (out : String → PageOutcome)
    (max_pages limit : Nat) :
    Nat → Bool → ScraperState → List (List String) × ScraperState
  | 0, _, s => ([], s)
  | fuel + 1, first_run, s =>
    if loopGuard max_pages s then
      let bs := next_batch limit first_run s
      let tasks := batchTasks canF bs.2 bs.1
      let s2 := runBatch canF out bs.2 tasks
      let rest := scrape_loop canF out max_pages limit fuel false s2
      (bs.1 :: rest.1, rest.2)
    else ([], s)

/-- `WebsiteScraper.scrape_website` (lines 68-125): record the run start
time, clear `visited_urls`, seed the frontier with the base URL, then run
the batch loop starting with `first_run = true`. -/
def scrape_website (canF : String → Bool) (out : String → PageOutcome)
    (base : String) (max_pages limit fuel now : Nat) (s : ScraperState) :
    List (List String) × ScraperState :=
  let s0 : ScraperState :=
    { s with last_scraped_time := some now, visited_urls := [],
             urls_to_scrape := [base] }
  scrape_loop canF out max_pages limit fuel true s0

/-- `WebsiteScraper.stop` (lines 263-271): set `stop_triggered`, clear the
visited set and the frontier, close the document store. -/
def stop (s : ScraperState) : ScraperState :=
  { s with stop_triggered := true, visited_urls := [], urls_to_scrape := [],
           doc_store_closed := true }

/-- The dictionary returned by `WebsiteScraper.progress` (lines 273-283):
visited count, remaining frontier count, and the last run start timestamp
(`None` before any run; `isoformat` is a pure rendering of the timestamp and
is left opaque). -/
structure Progress where
  visited_urls : Nat
  remaining_urls : Nat
  last_scraped_time : Option Nat
deriving Repr, DecidableEq

/-- `WebsiteScraper.progress` as a pure reading of the state: the method
body only reads fields and builds a dictionary. -/
def progress (s : ScraperState) : Progress :=
  { visited_urls := s.visited_urls.length,
    remaining_urls := s.urls_to_scrape.length,
    last_scraped_time := s.last_scraped_time }

/-- A call of `progress` as a state transition, exactly as the method
executes: it returns the snapshot and performs no assignment to any field,
so the post-state is the pre-state. -/
def progressCall (s : ScraperState) : Progress × ScraperState :=
  (progress s, s)

end Scraper

namespace PyUrl

/-!
CPython's `urllib.parse` functions are embedded over `List Char` (structural
recursion, so that concrete inputs evaluate), with `String` wrappers at the
interface.  A Lean `String` is its list of characters, so `·.data` /
`String.mk` translate faithfully.
-/

/-- A character allowed in a URL scheme after its first letter
(CPython `urllib.parse.scheme_chars`). -/
def isSchemeChar (c : Char) : Bool :=
  c.isAlphanum || c == '+' || c == '-' || c == '.'

/-- Split a character list at the first occurrence of `c` (the occurrence
itself dropped); `none` when `c` does not occur — Python `find`/slicing. -/
def breakAtChar (c : Char) : List Char → Option (List Char × List Char)
  | [] => none
  | x :: xs =>
    if x == c then some ([], xs)
    else
      match breakAtChar c xs with
      | some pp => some (x :: pp.1, pp.2)
      | none => none

/-- The scheme-stripping step of CPython `urlsplit`: when the text before
the first `:` is a non-empty valid scheme (letter first, then scheme
characters), drop it together with the colon; otherwise leave the URL
unchanged. -/
def afterScheme (url : List Char) : List Char :=
  match breakAtChar ':' url with
  | none => url
  | some pr =>
    match pr.1 with
    | [] => url
    | c :: cs => if c.isAlpha && cs.all isSchemeChar then pr.2 else url

/-- The netloc step of CPython `urlsplit`, applied after scheme stripping:
when the rest starts with `//`, the netloc is what follows up to the first
`/`, `?` or `#`; otherwise there is no netloc. -/
def netlocOf (rest : List Char) : List Char :=
  if ['/', '/'].isPrefixOf rest then
    (rest.drop 2).takeWhile (fun c => c != '/' && c != '?' && c != '#')
  else []

/-- Whether CPython `urlparse`/`urlsplit` raises `ValueError` on this URL:
it does exactly when the netloc contains `[` without `]` or `]` without `[`
("Invalid IPv6 URL").  (The additional validation of the text inside a
matched bracket pair, added in newer CPython, is not modelled; none of the
inputs used below has a matched bracket pair.) -/
def urlsplitRaises (url : String) : Bool :=
  let netloc := netlocOf (afterScheme url.data)
  netloc.any (fun c => c == '[') != netloc.any (fun c => c == ']')

/-- CPython `SplitResult.hostname` computed from a netloc: the part after
the last `@`; if it starts with `[`, the text up to `]` (brackets dropped),
otherwise the text before the first `:`; lowercased; `None` when empty. -/
def hostnameOf (netloc : List Char) : Option (List Char) :=
  let hostinfo := (netloc.reverse.takeWhile (fun c => c != '@')).reverse
  let host :=
    if ['['].isPrefixOf hostinfo then
      (hostinfo.drop 1).takeWhile (fun c => c != ']')
    else hostinfo.takeWhile (fun c => c != ':')
  if host.isEmpty then none else some (host.map Char.toLower)

/-- `urlparse(u).hostname` for a URL on which `urlsplit` does not raise. -/
def hostname (url : String) : Option String :=
  (hostnameOf (netlocOf (afterScheme url.data))).map String.mk

/-- Split a character list at the first occurrence of the pattern `pat`
(the occurrence itself dropped); `none` when it does not occur. -/
def splitFirstSeq (pat : List Char) : List Char → Option (List Char × List Char)
  | [] => none
  | c :: cs =>
    if pat.isPrefixOf (c :: cs) then some ([], (c :: cs).drop pat.length)
    else
      match splitFirstSeq pat cs with
      | some pp => some (c :: pp.1, pp.2)
      | none => none

/-- CPython `urljoin(base, href)` restricted to the shape used by
`_extract_links`: `href` is a root-relative reference (starts with `/`), so
the result keeps the scheme and netloc of `base` and replaces its path.
Modelled for a reference without dot segments; when `base` has no
scheme/netloc separator, `urljoin` returns the reference itself. -/
def urljoinRootRel (base href : String) : String :=
  match splitFirstSeq [':', '/', '/'] base.data with
  | some sr =>
      String.mk (sr.1 ++ [':', '/', '/'] ++
        sr.2.takeWhile (fun c => c != '/') ++ href.data)
  | none => href

end PyUrl

namespace Scraper

/-- The loop body of `WebsiteScraper._extract_links` (lines 238-251) for one
anchor: `get_attribute("href")` may return `None` (skipped, as is an empty
string, which is falsy); an href starting with `base_url` is appended
as-is; an href starting with `/` is appended after `urljoin` against
`base_url`; anything else is dropped. -/
def linkStep (base_url : String) (links : List String) (h : Option String) :
    List String :=
  match h with
  | none => links
  | some href =>
    if href.data.isEmpty then links
    else if base_url.data.isPrefixOf href.data then links ++ [href]
    else if ['/'].isPrefixOf href.data then
      links ++ [PyUrl.urljoinRootRel base_url href]
    else links

/-- `WebsiteScraper._extract_links` (lines 230-251): fold `linkStep` over
the `href` attributes of the page's anchor elements, starting from the
empty list.  The method returns this list (in document order, duplicates
kept). -/
def extract_links (base_url : String) (hrefs : List (Option String)) :
    List String :=
  hrefs.foldl (linkStep base_url) []

/-- The per-anchor transformation described by the specification of
`extract_links` (spec section 4.4), as a partial map: keep a same-site
absolute href as-is, resolve a root-relative href against the base URL,
drop everything else. -/
def linkOf (base_url : String) (h : Option String) : Option String :=
  match h with
  | none => none
  | some href =>
    if href.data.isEmpty then none
    else if base_url.data.isPrefixOf href.data then some href
    else if ['/'].isPrefixOf href.data then
      some (PyUrl.urljoinRootRel base_url href)
    else none

end Scraper

namespace AppServer

/-- `check_domain` in src/app.py (lines 62-75): `None` passes through, a URL
starting with `"http"` is returned as-is, anything else falls through the
function body and implicitly returns `None`. -/
def check_domain (url : Option String) : Option String :=
  match url with
  | none => none
  | some u =>
    if ['h', 't', 't', 'p'].isPrefixOf u.data then some u else none

/-- `extract_domain` in src/app.py (lines 77-90): an empty/falsy domain
yields `None`; otherwise `urlparse(domain).hostname` — `urlparse` can raise,
which propagates out of the handler (modelled as `Except.error`). -/
def extract_domain (domain : String) : Except Unit (Option String) :=
  if domain = "" then Except.ok none
  else if PyUrl.urlsplitRaises domain then Except.error ()
  else Except.ok (PyUrl.hostname domain)

/-- The attribute names of a plain Python `dict` object (its methods; dunder
names are covered separately).  `hasattr(d, name)` on a `dict` consults
these, never the dictionary's keys. -/
def dictAttrNames : List String :=
  ["clear", "copy", "fromkeys", "get", "items", "keys", "pop", "popitem",
   "setdefault", "update", "values"]

/-- Python `hasattr(scrapers, host)` where `scrapers` is a module-level
`dict` (src/app.py line 18): true exactly when `host` names an attribute of
the dict object — one of its methods or a dunder name — independently of
the keys stored in it. -/
def dictHasattr (name : String) : Bool :=
  dictAttrNames.contains name || ['_', '_'].isPrefixOf name.data

/-- `scrapers[host] = scraper` on the registry, modelled as an association
list keyed by host, values being opaque job identifiers: replaces the value
when the key is present, appends otherwise (Python dict assignment keeps
the original insertion position). -/
def dictSet (d : List (String × Nat)) (k : String) (v : Nat) :
    List (String × Nat) :=
  if d.any (fun p => p.1 == k) then
    d.map (fun p => if p.1 == k then (k, v) else p)
  else d ++ [(k, v)]

/-- An HTTP handler result: status code and whether the body was the
success response (as opposed to an `ErrorResponse`). -/
structure HttpResult where
  code : Nat
  ok : Bool
deriving Repr, DecidableEq

/-- The `start_scrape` handler in src/app.py (lines 93-140), on the scraper
registry: validate the URL (400 on a missing/non-http one), extract the
host (an exception from `urlparse`, or `hasattr` called with a `None` host,
escapes the handler: 500), reject with 400 when `hasattr(scrapers, host)`
holds, otherwise create a new job (`newId`) and assign `scrapers[host]`,
returning the success response. -/
def start_scrape (scrapers : List (String × Nat)) (newId : Nat)
    (url : Option String) : HttpResult × List (String × Nat) :=
  match check_domain url with
  | none => (⟨400, false⟩, scrapers)
  | some domain =>
    match extract_domain domain with
    | Except.error _ => (⟨500, false⟩, scrapers)
    | Except.ok none => (⟨500, false⟩, scrapers)
    | Except.ok (some host) =>
      if dictHasattr host then (⟨400, false⟩, scrapers)
      else (⟨200, true⟩, dictSet scrapers host newId)

end AppServer

namespace Mcp

/-- `ALLOWED_HOSTS` in src/mcp/app.py (lines 30-32): the empty list. -/
def ALLOWED_HOSTS : List String := []

/-- `is_url_allowed` in src/mcp/app.py (lines 94-110): inside a `try`,
parse the URL (`urlparse` may raise, and the `except` then returns
`False`); with an empty allowed list return `True`; otherwise test whether
the parsed hostname is in the list (`None` is in no list of strings). -/
def is_url_allowed (allowed : List String) (url : String) : Bool :=
  if PyUrl.urlsplitRaises url then false
  else if allowed.isEmpty then true
  else
    match PyUrl.hostname url with
    | some h => allowed.contains h
    | none => false

end Mcp

namespace Scenario

/-- A scraper state with no visited URLs, an empty frontier, and no run
started: the state right after `__init__`. -/
def freshState : Scraper.ScraperState := ⟨[], [], false, false, none⟩

/-- External effects for a two-page site: the base page `https://s` links to
`https://s/a`, every page fetches successfully, extraction yields no
document, and `https://s/a` links nowhere. -/
def twoPageSite : String → Scraper.PageOutcome := fun u =>
  if u = "https://s" then ⟨true, none, true, Except.ok ["https://s/a"]⟩
  else ⟨true, none, true, Except.ok []⟩

/-- Outcome of a page fetch that succeeds, extracts no document, and
discovers the single link `https://s/a`. -/
def discoversOneLink : Scraper.PageOutcome :=
  ⟨true, none, true, Except.ok ["https://s/a"]⟩

/-- Outcome of a page fetch that succeeds, extracts no document, and
discovers the same link `https://s/a` twice (two identical anchors on the
page; `_extract_links` keeps both). -/
def discoversDuplicateLinks : Scraper.PageOutcome :=
  ⟨true, none, true, Except.ok ["https://s/a", "https://s/a"]⟩

/-- A state mid-run: the base URL has been visited, the frontier is
momentarily drained, and one fetch unit is still in flight. -/
def midRunState : Scraper.ScraperState := ⟨["https://s"], [], false, false, some 0⟩

end Scenario

/-! ## Helper lemmas -/

theorem mem_setInsert_self (s : List String) (x : String) :
    x ∈ Scraper.setInsert s x := by
  unfold Scraper.setInsert
  split
  · assumption
  · simp

theorem mem_setInsert_of_mem {s : List String} (x : String) {y : String}
    (h : y ∈ s) : y ∈ Scraper.setInsert s x := by
  unfold Scraper.setInsert
  split
  · exact h
  · exact List.mem_append_left _ h

theorem linkStep_eq (base_url : String) (links : List String)
    (h : Option String) :
    Scraper.linkStep base_url links h =
      links ++ (Scraper.linkOf base_url h).toList := by
  unfold Scraper.linkStep Scraper.linkOf
  cases h with
  | none => simp
  | some href =>
    by_cases h1 : href.data.isEmpty <;> simp only [h1, if_true, if_false]
    · simp
    by_cases h2 : base_url.data.isPrefixOf href.data <;>
      simp only [h2, if_true, if_false]
    · simp
    by_cases h3 : List.isPrefixOf ['/'] href.data <;>
      simp only [h3, if_true, if_false] <;> simp

theorem foldl_linkStep (base_url : String) (hrefs : List (Option String)) :
    ∀ acc : List String,
      hrefs.foldl (Scraper.linkStep base_url) acc =
        acc ++ hrefs.filterMap (Scraper.linkOf base_url) := by
  induction hrefs with
  | nil => intro acc; simp
  | cons h t ih =>
    intro acc
    rw [List.foldl_cons, ih, linkStep_eq, List.filterMap_cons]
    cases hl : Scraper.linkOf base_url h <;> simp [hl, List.append_assoc]

/-! ## Claims -/

/-- C1 (counterexample): the no-duplicate-enqueue invariant as stated is
false.  On a page whose anchors contain the same new link twice, the
membership filter of `_scrape_page` is evaluated once against the frontier
as it stood before the `extend`, so the second offer of `https://s/a` is
appended even though the first offer has already placed it in the frontier:
the frontier ends with a duplicate entry. -/
theorem C1_offer_counterexample :
    (Scraper.scrape_page (fun _ => true) Scenario.discoversDuplicateLinks
        Scenario.freshState "https://s").urls_to_scrape
      = ["https://s/a", "https://s/a"] ∧
    ¬ (Scraper.scrape_page (fun _ => true) Scenario.discoversDuplicateLinks
        Scenario.freshState "https://s").urls_to_scrape.Nodup := by
  constructor
  · decide
  · decide

/-- C1 (amended): one link-discovery step of `_scrape_page` appends exactly
the discovered links that are not visited (counting the page's own URL,
marked visited just before), not present in the frontier as it stood before
the step, and allowed by `_can_fetch` — in order and with multiplicity, so
duplicate occurrences of a new URL within one page's discovered-link list
are each appended.  Consequently every URL in the resulting frontier was
either already in the frontier before the step, or was neither visited nor
present in the pre-step frontier and passed the policy check. -/
theorem C1_offer_amended (canF : String → Bool) (out : Scraper.PageOutcome)
    (s : Scraper.ScraperState) (url : String) (ls : List String)
    (hv : url ∉ s.visited_urls) (hf : out.fetchOk = true)
    (hl : out.links = Except.ok ls)
    (hs : out.content.isSome = false ∨ out.storeOk = true) :
    (Scraper.scrape_page canF out s url).urls_to_scrape
      = s.urls_to_scrape ++ ls.filter (fun l =>
          !decide (l ∈ Scraper.setInsert s.visited_urls url) &&
          !decide (l ∈ s.urls_to_scrape) && canF l) ∧
    ((Scraper.scrape_page canF out s url).urls_to_scrape.all (fun l =>
        decide (l ∈ s.urls_to_scrape) ||
        (!decide (l ∈ s.visited_urls) && !decide (l ∈ s.urls_to_scrape) &&
          canF l))) = true := by
  have hmain : (Scraper.scrape_page canF out s url).urls_to_scrape
      = s.urls_to_scrape ++ ls.filter (fun l =>
          !decide (l ∈ Scraper.setInsert s.visited_urls url) &&
          !decide (l ∈ s.urls_to_scrape) && canF l) := by
    unfold Scraper.scrape_page
    rw [if_neg hv, hf]
    rcases hs with hs | hs
    · simp only [hs, Bool.false_and, Bool.not_true, Bool.false_eq_true,
        if_false, hl]
    · simp only [hs, Bool.not_true, Bool.and_false, Bool.false_eq_true,
        if_false, hl]
  refine ⟨hmain, ?_⟩
  rw [hmain, List.all_eq_true]
  intro l hlmem
  rcases List.mem_append.mp hlmem with hpre | hnew
  · simp [hpre]
  · have hp := (List.mem_filter.mp hnew).2
    have h1 : ¬ (l ∈ Scraper.setInsert s.visited_urls url) := by
      intro hc
      simp [hc] at hp
    have h2 : ¬ (l ∈ s.urls_to_scrape) := by
      intro hc
      simp [hc] at hp
    have h3 : canF l = true := by
      by_cases hc : canF l = true
      · exact hc
      · simp [Bool.not_eq_true] at hc
        simp [hc] at hp
    have h0 : ¬ (l ∈ s.visited_urls) := fun hc => h1 (mem_setInsert_of_mem url hc)
    simp [h0, h2, h3]

/-- C1 (witness): the amended theorem applied to a concrete step — visited
set `{https://v}`, frontier `[https://f]`, page `https://s` discovering the
single new link `https://s/a`. -/
theorem C1_offer_witness :
    ("https://s" ∉
      (⟨["https://v"], ["https://f"], false, false, none⟩ :
        Scraper.ScraperState).visited_urls) ∧
    ((Scraper.scrape_page (fun _ => true) Scenario.discoversOneLink
        ⟨["https://v"], ["https://f"], false, false, none⟩ "https://s").urls_to_scrape
      = (⟨["https://v"], ["https://f"], false, false, none⟩ :
          Scraper.ScraperState).urls_to_scrape ++
        ["https://s/a"].filter (fun l =>
          !decide (l ∈ Scraper.setInsert
            (⟨["https://v"], ["https://f"], false, false, none⟩ :
              Scraper.ScraperState).visited_urls "https://s") &&
          !decide (l ∈ (⟨["https://v"], ["https://f"], false, false, none⟩ :
              Scraper.ScraperState).urls_to_scrape) && (fun _ => true) l) ∧
    ((Scraper.scrape_page (fun _ => true) Scenario.discoversOneLink
        ⟨["https://v"], ["https://f"], false, false, none⟩ "https://s").urls_to_scrape.all
      (fun l =>
        decide (l ∈ (⟨["https://v"], ["https://f"], false, false, none⟩ :
            Scraper.ScraperState).urls_to_scrape) ||
        (!decide (l ∈ (⟨["https://v"], ["https://f"], false, false, none⟩ :
            Scraper.ScraperState).visited_urls) &&
         !decide (l ∈ (⟨["https://v"], ["https://f"], false, false, none⟩ :
            Scraper.ScraperState).urls_to_scrape) && (fun _ => true) l))) = true) :=
  ⟨by decide,
   C1_offer_amended (fun _ => true) Scenario.discoversOneLink
     ⟨["https://v"], ["https://f"], false, false, none⟩ "https://s"
     ["https://s/a"] (by decide) rfl rfl (Or.inl rfl)⟩

/-- C2 (counterexample): "never returns a URL twice across the life of one
run" is false.  On the two-page site, the first loop iteration takes the
whole seeded frontier as the batch without removing it, so the second drain
returns the seed `https://s` again: the drained batches are
`[[https://s], [https://s, https://s/a]]` and their concatenation has a
duplicate. -/
theorem C2_batch_counterexample :
    (Scraper.scrape_website (fun _ => true) Scenario.twoPageSite "https://s"
        10 25 5 0 Scenario.freshState).1
      = [["https://s"], ["https://s", "https://s/a"]] ∧
    ¬ ((Scraper.scrape_website (fun _ => true) Scenario.twoPageSite "https://s"
        10 25 5 0 Scenario.freshState).1.flatten.Nodup) := by
  constructor
  · decide
  · decide

/-- C2 (amended): every drain after the first removes and returns at most
`limit` URLs from the front of the frontier in FIFO order (the batch is the
prefix, the remaining frontier the matching suffix); the first drain
returns the entire frontier and leaves it in place, which is why the seed
URL can be returned again by the following drain. -/
theorem C2_batch_amended (limit : Nat) (s : Scraper.ScraperState) :
    (Scraper.next_batch limit false s).1 = s.urls_to_scrape.take limit ∧
    (Scraper.next_batch limit false s).1.length ≤ limit ∧
    (Scraper.next_batch limit false s).1 ++
      (Scraper.next_batch limit false s).2.urls_to_scrape = s.urls_to_scrape ∧
    Scraper.next_batch limit true s = (s.urls_to_scrape, s) := by
  refine ⟨rfl, ?_, ?_, rfl⟩
  · simp [Scraper.next_batch]
  · simp [Scraper.next_batch]

/-- C3 (code bug): the `while` guard of `scrape_website` (line 97) tests
only frontier non-emptiness and the visited count; `stop_triggered` — set by
`stop()` at line 268 — is never read anywhere.  Concretely: `stop()` is
called mid-run (clearing the visited set and the frontier), then the
in-flight fetch unit for `https://s/x` completes and re-offers the link
`https://s/a` to the now-empty frontier; the guard then evaluates to true
with the stop flag set, and the next drain returns a non-empty batch. -/
theorem C3_stop_flag_unread :
    (Scraper.scrape_page (fun _ => true) Scenario.discoversOneLink
        (Scraper.stop Scenario.midRunState) "https://s/x").stop_triggered = true ∧
    Scraper.loopGuard 10
      (Scraper.scrape_page (fun _ => true) Scenario.discoversOneLink
        (Scraper.stop Scenario.midRunState) "https://s/x") = true ∧
    (Scraper.next_batch 25 false
      (Scraper.scrape_page (fun _ => true) Scenario.discoversOneLink
        (Scraper.stop Scenario.midRunState) "https://s/x")).1
      = ["https://s/a"] := by
  refine ⟨?_, ?_, ?_⟩ <;> decide

/-- C4 (code bug): starting a second crawl job for an already-active host is
not rejected.  Line 117 of src/app.py tests `hasattr(scrapers, host)` on
the `dict` registry, which consults the dict object's attributes and never
its keys, so it is false for any hostname: with `example.com` already
registered, a second `start_scrape` for `https://example.com` returns the
success response and silently replaces the existing job in the registry. -/
theorem C4_duplicate_start_not_rejected :
    AppServer.dictHasattr "example.com" = false ∧
    AppServer.start_scrape [("example.com", 1)] 2 (some "https://example.com")
      = (⟨200, true⟩, [("example.com", 2)]) := by
  refine ⟨?_, ?_⟩ <;> decide

/-- C5: a URL not yet visited when its fetch-extract-discover unit starts is
in the visited set when the unit ends exactly when its fetch (`page.goto`)
succeeded — a failed fetch leaves it unvisited, while failures of content
extraction, document storage, or link discovery after a successful fetch
leave it visited. -/
theorem C5_visited_iff_fetch_ok (canF : String → Bool)
    (out : Scraper.PageOutcome) (s : Scraper.ScraperState) (url : String)
    (hv : url ∉ s.visited_urls) :
    (url ∈ (Scraper.scrape_page canF out s url).visited_urls) ↔
      out.fetchOk = true := by
  unfold Scraper.scrape_page
  rw [if_neg hv]
  cases hf : out.fetchOk with
  | false =>
    simp only [Bool.not_false, if_true]
    exact ⟨fun h => absurd h hv, fun h => absurd h (by simp)⟩
  | true =>
    simp only [Bool.not_true, Bool.false_eq_true, if_false]
    constructor
    · intro _; trivial
    · intro _
      by_cases hc : out.content.isSome && !out.storeOk <;>
        simp only [hc, if_true, if_false]
      · exact mem_setInsert_self _ _
      · cases out.links with
        | error e => exact mem_setInsert_self _ _
        | ok ls => exact mem_setInsert_self _ _

/-- C5 (witness): the theorem applied to a fresh state and a unit whose
fetch succeeds but whose link discovery raises. -/
theorem C5_visited_iff_fetch_ok_witness :
    ("https://s" ∉ Scenario.freshState.visited_urls) ∧
    (("https://s" ∈ (Scraper.scrape_page (fun _ => true)
        ⟨true, none, true, Except.error ()⟩ Scenario.freshState
        "https://s").visited_urls) ↔
      (⟨true, none, true, Except.error ()⟩ : Scraper.PageOutcome).fetchOk = true) :=
  ⟨by decide,
   C5_visited_iff_fetch_ok (fun _ => true) ⟨true, none, true, Except.error ()⟩
     Scenario.freshState "https://s" (by decide)⟩

/-- C6 (counterexample): `_extract_links` does not return a set — duplicate
hrefs on one page do not collapse.  A page with two identical root-relative
anchors `/b` yields the resolved URL twice. -/
theorem C6_links_counterexample :
    Scraper.extract_links "https://site" [some "/b", some "/b"]
      = ["https://site/b", "https://site/b"] ∧
    ¬ (Scraper.extract_links "https://site" [some "/b", some "/b"]).Nodup := by
  refine ⟨?_, ?_⟩ <;> decide

/-- C6 (amended): `_extract_links` returns a list in document order,
duplicates kept, whose entries are exactly the per-anchor transformation of
the specification: a missing or empty href is dropped, an href starting
with the base URL is kept as-is, a root-relative href is resolved against
the base URL, and every other href is dropped.  On the page with anchors
`[https://site/a, /b, https://other.com/c, #frag]` and base `https://site`
it returns exactly `[https://site/a, https://site/b]`. -/
theorem C6_links_amended (base_url : String) (hrefs : List (Option String)) :
    Scraper.extract_links base_url hrefs
      = hrefs.filterMap (Scraper.linkOf base_url) ∧
    Scraper.extract_links "https://site"
      [some "https://site/a", some "/b", some "https://other.com/c",
       some "#frag"]
      = ["https://site/a", "https://site/b"] := by
  constructor
  · unfold Scraper.extract_links
    rw [foldl_linkStep]
    simp
  · decide

/-- C7: after `stop()` the frontier count and the visited count are both
zero, and a subsequent `progress()` call returns the snapshot
`{visited: 0, remaining: 0, last_scraped_time: unchanged}` without touching
the state (the method is total: it cannot error). -/
theorem C7_stop_then_progress (s : Scraper.ScraperState) :
    (Scraper.stop s).urls_to_scrape.length = 0 ∧
    (Scraper.stop s).visited_urls.length = 0 ∧
    Scraper.progressCall (Scraper.stop s)
      = (⟨0, 0, s.last_scraped_time⟩, Scraper.stop s) := by
  refine ⟨rfl, rfl, ?_⟩
  simp [Scraper.progressCall, Scraper.progress, Scraper.stop]

/-- C8: with `override_robots = true`, `_can_fetch` returns true for every
URL whatever the robots evaluation would do; with `override_robots = false`
and a parser present (the constructor always installs one), an exception
raised by the ruleset evaluation is caught and turned into false
(fail closed). -/
theorem C8_override_and_fail_closed (robotsPresent : Bool)
    (ruleEval : Except Unit Bool) :
    Scraper.can_fetch true robotsPresent ruleEval = true ∧
    Scraper.can_fetch false true (Except.error ()) = false := by
  constructor
  · simp [Scraper.can_fetch]
  · simp [Scraper.can_fetch]

/-- C9: `progress()` is read-only — it returns the visited count, the
remaining frontier count and the last run start timestamp, and the state
after the call is the state before it (the method body performs no
assignment). -/
theorem C9_progress_readonly (s : Scraper.ScraperState) :
    Scraper.progressCall s
      = ({ visited_urls := s.visited_urls.length,
           remaining_urls := s.urls_to_scrape.length,
           last_scraped_time := s.last_scraped_time }, s) := rfl

/-- C10 (counterexample): with the empty `ALLOWED_HOSTS` of the source,
`is_url_allowed` is not true for every input string: on `http://[::1` the
`urlparse` call raises `ValueError` (bracket without a closing bracket in
the authority) before the empty-list check is reached, the `except` returns
`False`, and the URL is not forwarded. -/
theorem C10_counterexample :
    Mcp.ALLOWED_HOSTS = [] ∧
    Mcp.is_url_allowed Mcp.ALLOWED_HOSTS "http://[::1" = false := by
  refine ⟨rfl, ?_⟩
  decide

/-- C10 (amended): with the empty `ALLOWED_HOSTS` of the source,
`is_url_allowed` returns true for every input string that `urlparse`
accepts (parseable or not a URL at all — only a `ValueError` from mismatched
brackets in the authority makes it return false), so the MCP tools forward
every such URL without host filtering. -/
theorem C10_empty_allowed_hosts (url : String)
    (h : PyUrl.urlsplitRaises url = false) :
    Mcp.is_url_allowed Mcp.ALLOWED_HOSTS url = true := by
  simp [Mcp.is_url_allowed, Mcp.ALLOWED_HOSTS, h]

/-- C10 (witness): the amended theorem applied to the non-URL string
`not a url`, which `urlparse` accepts. -/
theorem C10_empty_allowed_hosts_witness :
    PyUrl.urlsplitRaises "not a url" = false ∧
    Mcp.is_url_allowed Mcp.ALLOWED_HOSTS "not a url" = true :=
  ⟨by decide, C10_empty_allowed_hosts "not a url" (by decide)⟩
